import Mathlib

/-!
Shallow embedding of the Parseable persistence/catalog slice:
`server/src/catalog/column.rs` (typed per-column statistics) and
`server/src/storage/s3.rs` (S3-compatible object-storage client).

Modelling conventions:
  - Rust `i64`/`i32` values are carried as `ℤ`; the `as` casts that matter
    (i64 -> i32 truncation) are made explicit.
  - Rust `f64` is modelled by `F64` below: NaN, the two infinities, and finite
    numeric values as rationals.  Only ordering/min/max behaviour is needed by
    the statistics code, and for that the model is faithful up to identifying
    the two IEEE zeros and all NaN payloads.
  - Rust `String` values (byte-lexicographically ordered UTF-8) are carried as
    `List Char`; for valid UTF-8, byte-lexicographic order coincides with
    code-point-lexicographic order, which is the `List Char` linear order.
  - Fallible Rust paths return `Except`/`Option`; a `panic!` arm is `none`.
  - The network/file-system environment of one storage call is passed in
    explicitly as a structure of call outcomes, and functions additionally
    return the trace of backend requests they issued.
-/

/-- Model of a Rust `f64` value as the statistics code observes it: NaN (all
payloads identified), the two infinities, and finite numeric values as
rationals.  The two IEEE zeros are identified.  No claim here depends on
f64 bit width or rounding, only on ordering and on `f64::min`/`f64::max`. -/
inductive F64
  | nan
  | negInf
  | posInf
  | finite (q : ℚ)
deriving DecidableEq

/-- True exactly on the NaN value. -/
def F64.isNan : F64 → Bool
  | .nan => true
  | _ => false

/-- Rust `<=` on f64: numeric comparison, false whenever NaN is involved. -/
def F64.le : F64 → F64 → Bool
  | .nan, _ => false
  | _, .nan => false
  | .negInf, _ => true
  | _, .negInf => false
  | _, .posInf => true
  | .posInf, _ => false
  | .finite q, .finite r => decide (q ≤ r)

/-- Rust `f64::min` (NaN-ignoring minnum): if one argument is NaN the other is
returned, otherwise the numerically smaller one. -/
def F64.fmin (x y : F64) : F64 :=
  if x.isNan then y
  else if y.isNan then x
  else if x.le y then x else y

/-- Rust `f64::max` (NaN-ignoring maxnum): if one argument is NaN the other is
returned, otherwise the numerically larger one. -/
def F64.fmax (x y : F64) : F64 :=
  if x.isNan then y
  else if y.isNan then x
  else if x.le y then y else x

/-- Min/max container for boolean columns (`BoolType` in column.rs). -/
structure BoolType where
  min : Bool
  max : Bool
deriving DecidableEq

/-- Min/max container for float columns (`Float64Type` in column.rs). -/
structure Float64Type where
  min : F64
  max : F64
deriving DecidableEq

/-- Min/max container for integer columns (`Int64Type` in column.rs). -/
structure Int64Type where
  min : ℤ
  max : ℤ
deriving DecidableEq

/-- Min/max container for string columns (`Utf8Type` in column.rs). -/
structure Utf8Type where
  min : List Char
  max : List Char
deriving DecidableEq

/-- Tagged union of the four per-type statistics containers
(`TypedStatistics` in column.rs). -/
inductive TypedStatistics
  | bool (v : BoolType)
  | int (v : Int64Type)
  | float (v : Float64Type)
  | string (v : Utf8Type)
deriving DecidableEq

/-- Whether two `TypedStatistics` values carry the same variant tag. -/
def TypedStatistics.sameVariant : TypedStatistics → TypedStatistics → Bool
  | .bool _, .bool _ => true
  | .int _, .int _ => true
  | .float _, .float _ => true
  | .string _, .string _ => true
  | _, _ => false

/-- `TypedStatistics::update` from column.rs: elementwise min of the minimums
and max of the maximums for matching variants.  The wildcard arm is
`panic!("Cannot update wrong types")` in the source and is modelled as
`none`. -/
def TypedStatistics.update? : TypedStatistics → TypedStatistics → Option TypedStatistics
  | .bool x, .bool y => some (.bool ⟨min x.min y.min, max x.max y.max⟩)
  | .float x, .float y => some (.float ⟨x.min.fmin y.min, x.max.fmax y.max⟩)
  | .int x, .int y => some (.int ⟨min x.min y.min, max x.max y.max⟩)
  | .string x, .string y => some (.string ⟨min x.min y.min, max x.max y.max⟩)
  | _, _ => none

/-- Model of `arrow_schema::DataType` restricted to tag-level information:
the six constructors the source matches on, plus a representative sample of
the remaining constructors (their parameters are dropped because the source
match reaches them only through its wildcard arm). -/
inductive DataType
  | null
  | boolean
  | int8
  | int16
  | int32
  | int64
  | uint8
  | uint16
  | uint32
  | uint64
  | float16
  | float32
  | float64
  | timestamp
  | date32
  | date64
  | binary
  | largeBinary
  | utf8
  | largeUtf8
  | decimal128
  | listType
  | structType
deriving DecidableEq

/-- Model of `datafusion::scalar::ScalarValue` restricted to the constructors
the statistics projection builds. -/
inductive ScalarValue
  | boolean (v : Option Bool)
  | int32 (v : Option ℤ)
  | int64 (v : Option ℤ)
  | float32 (v : Option F64)
  | float64 (v : Option F64)
  | utf8 (v : Option (List Char))
deriving DecidableEq

/-- Rust `as` cast from i64 to i32: two's-complement truncation modulo `2 ^ 32`,
reinterpreted as a signed 32-bit value. -/
def i64AsI32 (n : ℤ) : ℤ := (n + 2 ^ 31) % 2 ^ 32 - 2 ^ 31

/-- Rust `as` cast from f64 to f32.  The model tracks the numeric value and not
the f32 rounding step; no property proved below depends on the rounded
value, only on which variant carries it. -/
def F64.asF32 (x : F64) : F64 := x

/-- `TypedStatistics::min_max_as_scalar` from column.rs: projects the stored
64-bit/boolean/string min and max down to a scalar pair for the requested
logical type; every pairing outside the six listed arms hits the source
wildcard and yields `none`. -/
def TypedStatistics.minMaxAsScalar : TypedStatistics → DataType → Option (ScalarValue × ScalarValue)
  | .bool stats, .boolean =>
    some (.boolean (some stats.min), .boolean (some stats.max))
  | .int stats, .int32 =>
    some (.int32 (some (i64AsI32 stats.min)), .int32 (some (i64AsI32 stats.max)))
  | .int stats, .int64 =>
    some (.int64 (some stats.min), .int64 (some stats.max))
  | .float stats, .float32 =>
    some (.float32 (some stats.min.asF32), .float32 (some stats.max.asF32))
  | .float stats, .float64 =>
    some (.float64 (some stats.min), .float64 (some stats.max))
  | .string stats, .utf8 =>
    some (.utf8 (some stats.min), .utf8 (some stats.max))
  | _, _ => none

/-- Whether a byte is a UTF-8 continuation byte (`10xxxxxx`). -/
def isUtf8Cont (b : Nat) : Bool := 0x80 ≤ b && b < 0xC0

/-- UTF-8 decoding of a byte sequence, as Rust `str::from_utf8` validates it
(RFC 3629): rejects stray continuation bytes, overlong encodings, surrogate
code points and code points above 0x10FFFF; `none` models the decode
error that `ByteArray::as_utf8` surfaces. -/
def utf8Decode : List Nat → Option (List Char)
  | [] => some []
  | b1 :: rest =>
    if b1 < 0x80 then
      (utf8Decode rest).map (Char.ofNat b1 :: ·)
    else if b1 < 0xC2 then
      none
    else if b1 < 0xE0 then
      match rest with
      | b2 :: rest2 =>
        if isUtf8Cont b2 then
          (utf8Decode rest2).map (Char.ofNat ((b1 - 0xC0) * 0x40 + (b2 - 0x80)) :: ·)
        else none
      | [] => none
    else if b1 < 0xF0 then
      match rest with
      | b2 :: b3 :: rest3 =>
        if isUtf8Cont b2 && isUtf8Cont b3 then
          let cp := (b1 - 0xE0) * 0x1000 + (b2 - 0x80) * 0x40 + (b3 - 0x80)
          if cp < 0x800 then none
          else if 0xD800 ≤ cp && cp < 0xE000 then none
          else (utf8Decode rest3).map (Char.ofNat cp :: ·)
        else none
      | _ => none
    else if b1 < 0xF5 then
      match rest with
      | b2 :: b3 :: b4 :: rest4 =>
        if isUtf8Cont b2 && isUtf8Cont b3 && isUtf8Cont b4 then
          let cp := (b1 - 0xF0) * 0x40000 + (b2 - 0x80) * 0x1000
            + (b3 - 0x80) * 0x40 + (b4 - 0x80)
          if cp < 0x10000 then none
          else if cp > 0x10FFFF then none
          else (utf8Decode rest4).map (Char.ofNat cp :: ·)
        else none
      | _ => none
    else none

/-- Model of `parquet::errors::ParquetError` as the conversion uses it. -/
inductive ParquetError
  | general (msg : String)
deriving DecidableEq

/-- Model of `parquet::file::statistics::Statistics`: each variant carries its
min/max values and the has-min-max flag of the native statistics object.
Int32 payloads are a subrange of `ℤ` (the `as i64` widening is the identity
on the value); Float payloads are f32 values embedded in `F64` (the
`as f64` widening is value-preserving); Int96 min/max are carried already
converted by the external `parquet::data_type::Int96::to_i64`, which lives
in the parquet crate outside this repository; byte-array payloads are byte
lists. -/
inductive Statistics
  | boolean (mn mx : Bool) (hasSet : Bool)
  | int32 (mn mx : ℤ) (hasSet : Bool)
  | int64 (mn mx : ℤ) (hasSet : Bool)
  | int96 (mn mx : ℤ) (hasSet : Bool)
  | float (mn mx : F64) (hasSet : Bool)
  | double (mn mx : F64) (hasSet : Bool)
  | byteArray (mn mx : List Nat) (hasSet : Bool)
  | fixedLenByteArray (mn mx : List Nat) (hasSet : Bool)
deriving DecidableEq

/-- `Statistics::has_min_max_set` of the parquet crate: the per-variant flag. -/
def Statistics.hasMinMaxSet : Statistics → Bool
  | .boolean _ _ h => h
  | .int32 _ _ h => h
  | .int64 _ _ h => h
  | .int96 _ _ h => h
  | .float _ _ h => h
  | .double _ _ h => h
  | .byteArray _ _ h => h
  | .fixedLenByteArray _ _ h => h

/-- `impl TryFrom<&Statistics> for TypedStatistics` from column.rs: fails with
a General "min max is not set" error when the flag is clear; otherwise
widens 32-bit values into the 64-bit variants and decodes byte arrays as
UTF-8, any decode failure failing the whole conversion. -/
def TypedStatistics.tryFrom (value : Statistics) : Except ParquetError TypedStatistics :=
  if value.hasMinMaxSet then
    match value with
    | .boolean mn mx _ => .ok (.bool ⟨mn, mx⟩)
    | .int32 mn mx _ => .ok (.int ⟨mn, mx⟩)
    | .int64 mn mx _ => .ok (.int ⟨mn, mx⟩)
    | .int96 mn mx _ => .ok (.int ⟨mn, mx⟩)
    | .float mn mx _ => .ok (.float ⟨mn, mx⟩)
    | .double mn mx _ => .ok (.float ⟨mn, mx⟩)
    | .byteArray mn mx _ =>
      match utf8Decode mn with
      | none => .error (.general "invalid utf-8 sequence")
      | some mn2 =>
        match utf8Decode mx with
        | none => .error (.general "invalid utf-8 sequence")
        | some mx2 => .ok (.string ⟨mn2, mx2⟩)
    | .fixedLenByteArray mn mx _ =>
      match utf8Decode mn with
      | none => .error (.general "invalid utf-8 sequence")
      | some mn2 =>
        match utf8Decode mx with
        | none => .error (.general "invalid utf-8 sequence")
        | some mx2 => .ok (.string ⟨mn2, mx2⟩)
  else
    .error (.general "min max is not set")

/-- Error taxonomy of the storage module (`ObjectStorageError`), restricted to
the variants reachable from the s3.rs paths modelled here; underlying
causes are abstracted away. -/
inductive ObjectStorageError
  | noSuchKey (path : List Char)
  | connectionError
  | unhandledError
deriving DecidableEq

/-- Model of `object_store::Error` at the grain the s3.rs conversion needs:
NotFound with its path, versus everything else. -/
inductive StoreError
  | notFound (path : List Char)
  | generic
deriving DecidableEq

/-- `impl From<object_store::Error> for ObjectStorageError` at the bottom of
s3.rs: NotFound maps to NoSuchKey, every other error to UnhandledError. -/
def StoreError.toStorageError : StoreError → ObjectStorageError
  | .notFound p => .noSuchKey p
  | .generic => .unhandledError

/-- Model of `std::io::Error` as an abstract failure token. -/
inductive IoError
  | ioError
deriving DecidableEq

/-- Modelled from the spec: io errors raised by local-file operations surface
through the storage taxonomy's catch-all (`UnhandledError`, §7 of the
spec); the `From<std::io::Error>` impl lives in the storage module outside
the provided sources. -/
def IoError.toStorageError : IoError → ObjectStorageError
  | .ioError => .unhandledError

/-- A stream identifier (`LogStream` of the storage module). -/
structure LogStream where
  name : List Char
deriving DecidableEq

/-- Split a path string at every slash, keeping empty segments. -/
def splitOnSlash : List Char → List (List Char)
  | [] => [[]]
  | c :: rest =>
    if c = '/' then [] :: splitOnSlash rest
    else
      match splitOnSlash rest with
      | [] => [[c]]
      | seg :: segs => (c :: seg) :: segs

/-- First segment of an `object_store` path (`path.parts().next()`): the first
nonempty slash-separated segment, since `Path` keeps only nonempty parts. -/
def pathFirstPart (p : List Char) : Option (List Char) :=
  ((splitOnSlash p).filter (· ≠ [])).head?

/-- The root-level directory names `_list_streams` extracts from the listing's
common prefixes (`filter_map(|path| path.parts().next())`). -/
def rootDirs (prefixes : List (List Char)) : List (List Char) :=
  prefixes.filterMap pathFirstPart

/-- Modelled from the spec: the per-stream metadata object name
(`object_storage::STREAM_METADATA_FILE_NAME`, declared outside the provided
sources; the spec's §6 names a per-stream metadata object at
`stream/stream-metadata-filename`).  No property below depends on its
concrete value. -/
def STREAM_METADATA_FILE_NAME : List Char := ".stream.json".toList

/-- The probe key `format!("{}/{}", dir, STREAM_METADATA_FILE_NAME)`. -/
def streamMetadataKey (dir : List Char) : List Char :=
  dir ++ ('/' :: STREAM_METADATA_FILE_NAME)

/-- Environment of one `_list_streams` call: the outcome of the root
`list_with_delimiter` call (its common prefixes as path strings), and the
outcome of the metadata `head` probe for each key. -/
structure ListStreamsBackend where
  listResult : Except StoreError (List (List Char))
  headResult : List Char → Except StoreError Unit

/-- The `try_collect` over the `FuturesUnordered` of head probes in
`_list_streams`: succeeds iff every probe succeeds; fails with a probe's
error otherwise.  Completion order of the futures is scheduling-dependent
in the source and only affects which failing probe's error is surfaced;
the model surfaces the first failure in list order. -/
def probeAll (b : ListStreamsBackend) : List (List Char) → Except ObjectStorageError Unit
  | [] => .ok ()
  | d :: ds =>
    match b.headResult (streamMetadataKey d) with
    | .error e => .error e.toStorageError
    | .ok _ => probeAll b ds

/-- `S3::_list_streams` from s3.rs: lists root common prefixes, takes each
prefix's first path segment, probes `dir/STREAM_METADATA_FILE_NAME` for
every candidate and propagates any probe failure via `try_collect`'s `?`;
when all probes succeed it returns all candidates, unfiltered. -/
def listStreams (b : ListStreamsBackend) : Except ObjectStorageError (List LogStream) :=
  match b.listResult with
  | .error e => .error e.toStorageError
  | .ok prefixes =>
    let dirs := rootDirs prefixes
    match probeAll b dirs with
    | .error e => .error e
    | .ok _ => .ok (dirs.map LogStream.mk)

/-- Environment of one `_delete_prefix` call: the outcome of the initial
`list` call (on success, the stream of items, each either an object
location or a listing-stream error), and the outcome of the `delete` call
per object location. -/
structure DeletePrefixBackend where
  listResult : Except StoreError (List (Except StoreError (List Char)))
  deleteResult : List Char → Except StoreError Unit

/-- Observable actions of the `_delete_prefix` fan-out: a delete request for a
location, or an error being logged (`log::error!`). -/
inductive DelEvent
  | deleteAttempt (loc : List Char)
  | logDeleteError
deriving DecidableEq

/-- Events of one `for_each_concurrent` body in `_delete_prefix`: an Ok item
gets a delete attempt whose failure is only logged; an Err item is only
logged. -/
def delItemEvents (b : DeletePrefixBackend) : Except StoreError (List Char) → List DelEvent
  | .ok loc =>
    match b.deleteResult loc with
    | .ok _ => [.deleteAttempt loc]
    | .error _ => [.deleteAttempt loc, .logDeleteError]
  | .error _ => [.logDeleteError]

/-- `S3::_delete_prefix` from s3.rs: the initial `list` failure propagates via
`?`; otherwise every listed item is processed by `for_each_concurrent`
(modelled in stream order — items are handled independently, so order does
not affect the result), and the call returns Ok regardless of the
individual outcomes.  The second component is the event trace. -/
def deletePrefix (b : DeletePrefixBackend) : Except ObjectStorageError Unit × List DelEvent :=
  match b.listResult with
  | .error e => (.error e.toStorageError, [])
  | .ok items => (.ok (), (items.map (delItemEvents b)).flatten)

/-- One iteration of the `_upload_multipart` read loop as the environment
drives it: the `file.read` call fails, or reports end of file (length 0),
or yields a chunk whose `write_all` and `flush` outcomes are given. -/
inductive ChunkStep
  | readError
  | eof
  | chunk (writeResult flushResult : Except IoError Unit)

/-- Environment of one `_upload_multipart` call. Exhaustion of `steps` is read
as end of file. -/
structure MultipartBackend where
  openResult : Except IoError Unit
  putMultipartResult : Except StoreError Unit
  steps : List ChunkStep
  abortResult : Except StoreError Unit
  shutdownResult : Except IoError Unit

/-- Store requests a storage call can issue. -/
inductive Req
  | putObject
  | openMultipart
  | abortMultipart
  | completeMultipart
deriving DecidableEq

/-- How the `loop` in `_upload_multipart` ends: control falls through to the
`shutdown` call (plain `break`, or `break` after a successful
`close_multipart`), or `close_multipart(err)?` propagates a failure of the
abort request itself. -/
inductive LoopExit
  | done
  | earlyError (e : ObjectStorageError)
deriving DecidableEq

/-- The read/write/flush loop of `_upload_multipart`.  On a read, write or
flush error it runs `close_multipart` (logs, then issues the abort
request): if the abort itself fails that error propagates via `?`,
otherwise the loop just breaks — the original chunk error is dropped. -/
def multipartLoop (abortResult : Except StoreError Unit) :
    List ChunkStep → LoopExit × List Req
  | [] => (.done, [])
  | step :: rest =>
    match step with
    | .readError =>
      match abortResult with
      | .ok _ => (.done, [Req.abortMultipart])
      | .error e => (.earlyError e.toStorageError, [Req.abortMultipart])
    | .eof => (.done, [])
    | .chunk w f =>
      match w with
      | .error _ =>
        match abortResult with
        | .ok _ => (.done, [Req.abortMultipart])
        | .error e => (.earlyError e.toStorageError, [Req.abortMultipart])
      | .ok _ =>
        match f with
        | .error _ =>
          match abortResult with
          | .ok _ => (.done, [Req.abortMultipart])
          | .error e => (.earlyError e.toStorageError, [Req.abortMultipart])
        | .ok _ => multipartLoop abortResult rest

/-- `S3::_upload_multipart` from s3.rs: opens the local file, opens the
multipart session, runs the chunk loop, and then — whenever the loop ends
in a `break`, including the abort-after-error paths — calls
`async_writer.shutdown()` and returns its outcome. -/
def uploadMultipart (b : MultipartBackend) : Except ObjectStorageError Unit × List Req :=
  match b.openResult with
  | .error e => (.error e.toStorageError, [])
  | .ok _ =>
    match b.putMultipartResult with
    | .error e => (.error e.toStorageError, [Req.openMultipart])
    | .ok _ =>
      match multipartLoop b.abortResult b.steps with
      | (.earlyError e, reqs) => (.error e, Req.openMultipart :: reqs)
      | (.done, reqs) =>
        match b.shutdownResult with
        | .error e =>
          (.error e.toStorageError, Req.openMultipart :: (reqs ++ [Req.completeMultipart]))
        | .ok _ => (.ok (), Req.openMultipart :: (reqs ++ [Req.completeMultipart]))

/-- `MULTIPART_UPLOAD_SIZE` from s3.rs: 100 MiB, in bytes. -/
def MULTIPART_UPLOAD_SIZE : Nat := 1024 * 1024 * 100

/-- Environment of one `_upload_file` call: the local file-size query
(`std::fs::metadata(path)?.len()`), the whole-file read of the single-shot
path, the single `put` outcome, and the multipart environment. -/
structure UploadFileBackend where
  fileLenResult : Except IoError Nat
  readResult : Except IoError Unit
  putResult : Except StoreError Unit
  multipart : MultipartBackend

/-- `S3::_upload_file` from s3.rs (metrics observation elided — it does not
change the returned value): takes the multipart path iff the file length
exceeds `MULTIPART_UPLOAD_SIZE`, otherwise reads the file fully and issues
one `put`. -/
def uploadFile (b : UploadFileBackend) : Except ObjectStorageError Unit × List Req :=
  match b.fileLenResult with
  | .error e => (.error e.toStorageError, [])
  | .ok len =>
    if len > MULTIPART_UPLOAD_SIZE then
      uploadMultipart b.multipart
    else
      match b.readResult with
      | .error e => (.error e.toStorageError, [])
      | .ok _ =>
        match b.putResult with
        | .error e => (.error e.toStorageError, [Req.putObject])
        | .ok _ => (.ok (), [Req.putObject])

theorem F64.le_rfl (x : F64) (h : x.isNan = false) : x.le x = true := by
  cases x <;> simp_all [F64.le, F64.isNan]

theorem F64.le_total' (x y : F64) (hx : x.isNan = false) (hy : y.isNan = false) :
    x.le y = true ∨ y.le x = true := by
  cases x <;> cases y <;> simp_all [F64.le, F64.isNan]
  exact le_total _ _

theorem F64.le_antisymm' (x y : F64) (hxy : x.le y = true) (hyx : y.le x = true) : x = y := by
  cases x <;> cases y <;> simp_all [F64.le]
  exact le_antisymm hxy hyx

theorem F64.eq_nan_of_isNan (x : F64) (h : x.isNan = true) : x = .nan := by
  cases x <;> simp_all [F64.isNan]

theorem F64.fmin_comm (x y : F64) : x.fmin y = y.fmin x := by
  cases hx : x.isNan <;> cases hy : y.isNan <;> simp [F64.fmin, hx, hy]
  · rcases F64.le_total' x y hx hy with h | h
    · rw [if_pos h]
      rcases hyx : y.le x with _ | _
      · simp
      · simp [F64.le_antisymm' x y h hyx]
    · rw [if_pos h]
      rcases hxy : x.le y with _ | _
      · simp
      · simp [F64.le_antisymm' x y hxy h]
  · rw [F64.eq_nan_of_isNan x hx, F64.eq_nan_of_isNan y hy]

theorem F64.fmax_comm (x y : F64) : x.fmax y = y.fmax x := by
  cases hx : x.isNan <;> cases hy : y.isNan <;> simp [F64.fmax, hx, hy]
  · rcases F64.le_total' x y hx hy with h | h
    · rw [if_pos h]
      rcases hyx : y.le x with _ | _
      · simp
      · simp [F64.le_antisymm' x y h hyx]
    · rw [if_pos h]
      rcases hxy : x.le y with _ | _
      · simp
      · simp [F64.le_antisymm' x y hxy h]
  · rw [F64.eq_nan_of_isNan x hx, F64.eq_nan_of_isNan y hy]

theorem F64.fmin_choice (x y : F64) : x.fmin y = x ∨ x.fmin y = y := by
  unfold F64.fmin
  split
  · exact Or.inr rfl
  · split
    · exact Or.inl rfl
    · split
      · exact Or.inl rfl
      · exact Or.inr rfl

theorem F64.fmax_choice (x y : F64) : x.fmax y = x ∨ x.fmax y = y := by
  unfold F64.fmax
  split
  · exact Or.inr rfl
  · split
    · exact Or.inl rfl
    · split
      · exact Or.inr rfl
      · exact Or.inl rfl

theorem F64.fmin_le_left (x y : F64) (hx : x.isNan = false) (hy : y.isNan = false) :
    (x.fmin y).le x = true := by
  simp only [F64.fmin, hx, hy, Bool.false_eq_true, if_false]
  rcases h : x.le y with _ | _
  · simp only [Bool.false_eq_true, if_false]
    rcases F64.le_total' x y hx hy with h2 | h2
    · simp_all
    · exact h2
  · simp [F64.le_rfl x hx]

theorem F64.fmin_le_right (x y : F64) (hx : x.isNan = false) (hy : y.isNan = false) :
    (x.fmin y).le y = true := by
  simp only [F64.fmin, hx, hy, Bool.false_eq_true, if_false]
  rcases h : x.le y with _ | _
  · simp [F64.le_rfl y hy]
  · simp [h]

theorem F64.le_fmax_left (x y : F64) (hx : x.isNan = false) (hy : y.isNan = false) :
    x.le (x.fmax y) = true := by
  simp only [F64.fmax, hx, hy, Bool.false_eq_true, if_false]
  rcases h : x.le y with _ | _
  · simp only [Bool.false_eq_true, if_false]
    exact F64.le_rfl x hx
  · simp [h]

theorem F64.le_fmax_right (x y : F64) (hx : x.isNan = false) (hy : y.isNan = false) :
    y.le (x.fmax y) = true := by
  simp only [F64.fmax, hx, hy, Bool.false_eq_true, if_false]
  rcases h : x.le y with _ | _
  · simp only [Bool.false_eq_true, if_false]
    rcases F64.le_total' x y hx hy with h2 | h2
    · simp_all
    · exact h2
  · simp [F64.le_rfl y hy]

/-- C5: merging two `TypedStatistics` values never silently produces a result
across variants — `update` reaches its panic arm (modelled as `none`)
exactly when the variants differ, so under the same-variant precondition
the panic arm is unreachable and a value is always produced. -/
theorem c5_update_mismatch_is_panic (a b : TypedStatistics) :
    (a.update? b).isSome = a.sameVariant b := by
  cases a <;> cases b <;> rfl

/-- The supported projection table as the specification lists it: Bool with
Boolean, Int with Int32 or Int64, Float with Float32 or Float64, String
with Utf8. -/
def supportedPair : TypedStatistics → DataType → Bool
  | .bool _, .boolean => true
  | .int _, .int32 => true
  | .int _, .int64 => true
  | .float _, .float32 => true
  | .float _, .float64 => true
  | .string _, .utf8 => true
  | _, _ => false

/-- C6: `min_max_as_scalar` returns a pair exactly for the supported
(variant, target type) pairs — Bool-Boolean, Int-Int32, Int-Int64,
Float-Float32, Float-Float64, String-Utf8 — and `none` for every other
combination. -/
theorem c6_min_max_as_scalar_domain (s : TypedStatistics) (dt : DataType) :
    (s.minMaxAsScalar dt).isSome = supportedPair s dt := by
  cases s <;> cases dt <;> rfl

/-- C9: `update` is commutative, including the Float variant under the
platform (NaN-ignoring) float min/max convention; variant mismatches
yield the panic arm on both sides. -/
theorem c9_update_comm (a b : TypedStatistics) : a.update? b = b.update? a := by
  cases a <;> cases b <;>
    simp [TypedStatistics.update?, min_comm, max_comm, F64.fmin_comm, F64.fmax_comm]

/-- C10: an Int-variant statistic with `min ≤ max` but values outside the
signed 32-bit range is still projected to an Int32 pair, the components
being the i64 values truncated by the Rust `as` cast, and on the witness
input `min = -2^31 - 1`, `max = 2^31` the projected min (`2^31 - 1`) is
strictly greater than the projected max (`-2^31`): the narrowing
projection does not preserve the `min ≤ max` invariant. -/
theorem c10_int32_narrowing_breaks_invariant :
    ((-(2 ^ 31) - 1 : ℤ) ≤ 2 ^ 31)
    ∧ ((-(2 ^ 31) - 1 : ℤ) < -(2 ^ 31) ∧ (2 ^ 31 : ℤ) > 2 ^ 31 - 1)
    ∧ (TypedStatistics.int ⟨-(2 ^ 31) - 1, 2 ^ 31⟩).minMaxAsScalar .int32 =
        some (.int32 (some (i64AsI32 (-(2 ^ 31) - 1))), .int32 (some (i64AsI32 (2 ^ 31))))
    ∧ i64AsI32 (-(2 ^ 31) - 1) = 2 ^ 31 - 1
    ∧ i64AsI32 (2 ^ 31) = -(2 ^ 31)
    ∧ (2 ^ 31 - 1 : ℤ) > -(2 ^ 31) := by
  refine ⟨by norm_num, ⟨by norm_num, by norm_num⟩, rfl, by decide, by decide, by norm_num⟩

/-- The value `m` is the least of `u` and `v` for the relation `le`: it is one
of them and is below both. -/
def isLeastOf {α : Type} (le : α → α → Prop) (m u v : α) : Prop :=
  (m = u ∨ m = v) ∧ le m u ∧ le m v

/-- The value `m` is the greatest of `u` and `v` for the relation `le`: it is
one of them and is above both. -/
def isGreatestOf {α : Type} (le : α → α → Prop) (m u v : α) : Prop :=
  (m = u ∨ m = v) ∧ le u m ∧ le v m

/-- C4: for same-variant inputs, `update` produces a value of that same
variant whose min is the elementwise minimum of the two minimums and whose
max is the elementwise maximum of the two maximums, under boolean ordering
(false below true), integer numeric ordering, string lexicographic
ordering, and float numeric ordering — the float part stated on NaN-free
fields, where the platform min/max convention the source uses agrees with
the numeric order. -/
theorem c4_update_elementwise :
    (∀ x y : BoolType, ∃ z : BoolType,
        (TypedStatistics.bool x).update? (.bool y) = some (.bool z)
        ∧ isLeastOf (· ≤ ·) z.min x.min y.min
        ∧ isGreatestOf (· ≤ ·) z.max x.max y.max)
    ∧ (∀ x y : Int64Type, ∃ z : Int64Type,
        (TypedStatistics.int x).update? (.int y) = some (.int z)
        ∧ isLeastOf (· ≤ ·) z.min x.min y.min
        ∧ isGreatestOf (· ≤ ·) z.max x.max y.max)
    ∧ (∀ x y : Utf8Type, ∃ z : Utf8Type,
        (TypedStatistics.string x).update? (.string y) = some (.string z)
        ∧ isLeastOf (· ≤ ·) z.min x.min y.min
        ∧ isGreatestOf (· ≤ ·) z.max x.max y.max)
    ∧ (∀ x y : Float64Type,
        x.min.isNan = false → y.min.isNan = false →
        x.max.isNan = false → y.max.isNan = false →
        ∃ z : Float64Type,
          (TypedStatistics.float x).update? (.float y) = some (.float z)
          ∧ isLeastOf (fun u v => F64.le u v = true) z.min x.min y.min
          ∧ isGreatestOf (fun u v => F64.le u v = true) z.max x.max y.max) := by
  refine ⟨?_, ?_, ?_, ?_⟩
  · intro x y
    exact ⟨_, rfl,
      ⟨min_choice _ _, min_le_left _ _, min_le_right _ _⟩,
      ⟨max_choice _ _, le_max_left _ _, le_max_right _ _⟩⟩
  · intro x y
    exact ⟨_, rfl,
      ⟨min_choice _ _, min_le_left _ _, min_le_right _ _⟩,
      ⟨max_choice _ _, le_max_left _ _, le_max_right _ _⟩⟩
  · intro x y
    exact ⟨_, rfl,
      ⟨min_choice _ _, min_le_left _ _, min_le_right _ _⟩,
      ⟨max_choice _ _, le_max_left _ _, le_max_right _ _⟩⟩
  · intro x y h1 h2 h3 h4
    exact ⟨_, rfl,
      ⟨F64.fmin_choice _ _, F64.fmin_le_left _ _ h1 h2, F64.fmin_le_right _ _ h1 h2⟩,
      ⟨F64.fmax_choice _ _, F64.le_fmax_left _ _ h3 h4, F64.le_fmax_right _ _ h3 h4⟩⟩

/-- C4 witness: the float clause applied at NaN-free concrete statistics
(min/max pairs (1, 5) and (2, 3)), with the NaN-freeness hypotheses
discharged by evaluation. -/
theorem c4_update_elementwise_witness :
    ((F64.finite 1).isNan = false ∧ (F64.finite 2).isNan = false
      ∧ (F64.finite 5).isNan = false ∧ (F64.finite 3).isNan = false)
    ∧ ∃ z : Float64Type,
        (TypedStatistics.float ⟨.finite 1, .finite 5⟩).update? (.float ⟨.finite 2, .finite 3⟩) =
          some (.float z)
        ∧ isLeastOf (fun u v => F64.le u v = true) z.min (.finite 1) (.finite 2)
        ∧ isGreatestOf (fun u v => F64.le u v = true) z.max (.finite 5) (.finite 3) :=
  ⟨⟨rfl, rfl, rfl, rfl⟩,
    c4_update_elementwise.2.2.2 ⟨.finite 1, .finite 5⟩ ⟨.finite 2, .finite 3⟩ rfl rfl rfl rfl⟩

/-- C7: conversion from native parquet statistics fails with the
"min max is not set" error whenever the source min/max flag is clear;
with the flag set, 32-bit integer and 32-bit float statistics widen
value-preservingly into the 64-bit Int and Float variants; and a
byte-array statistic whose min or max bytes fail UTF-8 decoding fails the
whole conversion with a decode error instead of being skipped. -/
theorem c7_try_from_conversion :
    (∀ s : Statistics, s.hasMinMaxSet = false →
        TypedStatistics.tryFrom s = .error (.general "min max is not set"))
    ∧ (∀ mn mx : ℤ,
        TypedStatistics.tryFrom (.int32 mn mx true) = .ok (.int ⟨mn, mx⟩))
    ∧ (∀ mn mx : F64,
        TypedStatistics.tryFrom (.float mn mx true) = .ok (.float ⟨mn, mx⟩))
    ∧ (∀ mn mx : List Nat, utf8Decode mn = none →
        TypedStatistics.tryFrom (.byteArray mn mx true) =
          .error (.general "invalid utf-8 sequence"))
    ∧ (∀ mn mx : List Nat, utf8Decode mx = none →
        TypedStatistics.tryFrom (.byteArray mn mx true) =
          .error (.general "invalid utf-8 sequence")) := by
  refine ⟨?_, ?_, ?_, ?_, ?_⟩
  · intro s h
    unfold TypedStatistics.tryFrom
    rw [h]
    rfl
  · intro mn mx
    rfl
  · intro mn mx
    rfl
  · intro mn mx h
    unfold TypedStatistics.tryFrom
    simp only [Statistics.hasMinMaxSet, if_true, h]
  · intro mn mx h
    unfold TypedStatistics.tryFrom
    simp only [Statistics.hasMinMaxSet, if_true, h]
    cases utf8Decode mn <;> rfl

/-- C7 witness: the unset-flag clause at a boolean statistic with the flag
clear, the widening clauses at concrete values, and the decode-failure
clause at the single invalid byte 0xFF. -/
theorem c7_try_from_conversion_witness :
    ((Statistics.boolean true true false).hasMinMaxSet = false
      ∧ TypedStatistics.tryFrom (.boolean true true false) =
          .error (.general "min max is not set"))
    ∧ TypedStatistics.tryFrom (.int32 3 7 true) = .ok (.int ⟨3, 7⟩)
    ∧ TypedStatistics.tryFrom (.float (.finite 2) (.finite 9) true) =
        .ok (.float ⟨.finite 2, .finite 9⟩)
    ∧ (utf8Decode [255] = none
      ∧ TypedStatistics.tryFrom (.byteArray [255] [] true) =
          .error (.general "invalid utf-8 sequence")) :=
  ⟨⟨rfl, c7_try_from_conversion.1 (.boolean true true false) rfl⟩,
    c7_try_from_conversion.2.1 3 7,
    c7_try_from_conversion.2.2.1 (.finite 2) (.finite 9),
    ⟨rfl, c7_try_from_conversion.2.2.2.1 [255] [] rfl⟩⟩

theorem probeAll_ok (b : ListStreamsBackend) :
    ∀ ds : List (List Char),
      (∀ d ∈ ds, b.headResult (streamMetadataKey d) = .ok ()) →
      probeAll b ds = .ok () := by
  intro ds
  induction ds with
  | nil => intro h; rfl
  | cons a as ih =>
    intro h
    have ha := h a (List.mem_cons_self a as)
    simp only [probeAll, ha]
    exact ih fun d hm => h d (List.mem_cons_of_mem _ hm)

theorem probeAll_isErr (b : ListStreamsBackend) :
    ∀ ds : List (List Char), ∀ d ∈ ds, ∀ e,
      b.headResult (streamMetadataKey d) = .error e →
      ∃ e2, probeAll b ds = .error e2 := by
  intro ds
  induction ds with
  | nil => intro d hd; simp at hd
  | cons a as ih =>
    intro d hd e he
    rcases List.mem_cons.mp hd with h | h
    · subst h
      exact ⟨e.toStorageError, by simp only [probeAll, he]⟩
    · cases hres : b.headResult (streamMetadataKey a) with
      | error e3 => exact ⟨e3.toStorageError, by simp only [probeAll, hres]⟩
      | ok u =>
        rcases ih d h e he with ⟨e2, h2⟩
        exact ⟨e2, by simp only [probeAll, hres, h2]⟩

/-- C1 (amended): `_list_streams` is all-or-nothing, with no filtering — a
failed root listing propagates its mapped error; when the listing
succeeds, the call returns all root-level candidates whenever every
metadata probe succeeds, and fails outright whenever any candidate's probe
fails, including a probe that merely reports not-found for a candidate
lacking the metadata object. -/
theorem c1_list_streams_all_or_nothing (b : ListStreamsBackend) :
    (∀ e, b.listResult = .error e → listStreams b = .error e.toStorageError)
    ∧ (∀ prefixes, b.listResult = .ok prefixes →
        ((∀ d ∈ rootDirs prefixes, b.headResult (streamMetadataKey d) = .ok ()) →
            listStreams b = .ok ((rootDirs prefixes).map LogStream.mk))
        ∧ (∀ d ∈ rootDirs prefixes, ∀ e,
            b.headResult (streamMetadataKey d) = .error e →
            ∃ e2, listStreams b = .error e2)) := by
  constructor
  · intro e he
    simp only [listStreams, he]
  · intro prefixes hp
    constructor
    · intro hall
      have hprobe := probeAll_ok b (rootDirs prefixes) hall
      simp only [listStreams, hp, hprobe]
    · intro d hd e he
      rcases probeAll_isErr b (rootDirs prefixes) d hd e he with ⟨e2, h2⟩
      exact ⟨e2, by simp only [listStreams, hp, h2]⟩

/-- A backend whose root listing yields one candidate whose metadata probe
succeeds. -/
def c1OkBackend : ListStreamsBackend where
  listResult := .ok ["orders".toList]
  headResult := fun _ => .ok ()

/-- C1 witness: on a backend with the single candidate `orders` whose probe
succeeds, the amended theorem applied with both hypotheses discharged
evaluates the call to `ok [orders]`. -/
theorem c1_list_streams_all_or_nothing_witness :
    c1OkBackend.listResult = .ok ["orders".toList]
    ∧ listStreams c1OkBackend = .ok [LogStream.mk "orders".toList] :=
  ⟨rfl, ((c1_list_streams_all_or_nothing c1OkBackend).2 ["orders".toList] rfl).1
    fun _ _ => rfl⟩

/-- A backend holding candidates `orders` (metadata object present) and
`users` (metadata object absent: its probe reports not-found). -/
def c1MissingMetaBackend : ListStreamsBackend where
  listResult := .ok ["orders".toList, "users".toList]
  headResult := fun k =>
    if k = streamMetadataKey "users".toList then .error (.notFound k) else .ok ()

/-- C1 counterexample: with `orders` carrying the metadata object and `users`
lacking it, `_list_streams` does not return `[orders]` — the not-found
probe outcome is not an exclusion but a failure of the whole call, which
returns the mapped NoSuchKey error. -/
theorem c1_counterexample :
    listStreams c1MissingMetaBackend =
      .error (.noSuchKey (streamMetadataKey "users".toList))
    ∧ (listStreams c1MissingMetaBackend =
        .ok [LogStream.mk "orders".toList]) = False := by
  constructor
  · rfl
  · simp only [eq_iff_iff, iff_false]
    intro h
    exact Except.noConfusion ((rfl :
      listStreams c1MissingMetaBackend =
        .error (.noSuchKey (streamMetadataKey "users".toList))).symm.trans h)

theorem mem_delItemEvents (b : DeletePrefixBackend)
    (it : Except StoreError (List Char)) (loc : List Char) :
    DelEvent.deleteAttempt loc ∈ delItemEvents b it ↔ it = .ok loc := by
  cases it with
  | ok l =>
    simp only [delItemEvents]
    cases b.deleteResult l <;> simp [eq_comm]
  | error e => simp [delItemEvents]

theorem delete_attempt_mem (b : DeletePrefixBackend)
    (items : List (Except StoreError (List Char))) (loc : List Char) :
    DelEvent.deleteAttempt loc ∈ (items.map (delItemEvents b)).flatten ↔
      .ok loc ∈ items := by
  induction items with
  | nil => simp
  | cons it its ih =>
    simp only [List.map_cons, List.flatten_cons, List.mem_append, ih, List.mem_cons,
      mem_delItemEvents, eq_comm]

/-- C3: `_delete_prefix` is best-effort — whenever the initial listing
succeeds the call returns Ok, a delete request is attempted for exactly
the listed object locations, and the returned value does not depend on the
per-object delete outcomes; the call returns an error exactly when the
initial listing fails, with the listing error mapped into the storage
taxonomy. -/
theorem c3_delete_prefix_best_effort (b : DeletePrefixBackend) :
    (∀ items, b.listResult = .ok items →
      (deletePrefix b).1 = .ok ()
      ∧ ∀ loc, DelEvent.deleteAttempt loc ∈ (deletePrefix b).2 ↔ .ok loc ∈ items)
    ∧ (∀ e, b.listResult = .error e →
        (deletePrefix b).1 = .error e.toStorageError)
    ∧ (∀ b2 : DeletePrefixBackend, b2.listResult = b.listResult →
        (deletePrefix b2).1 = (deletePrefix b).1) := by
  refine ⟨?_, ?_, ?_⟩
  · intro items hi
    refine ⟨by simp only [deletePrefix, hi], ?_⟩
    intro loc
    simp only [deletePrefix, hi]
    exact delete_attempt_mem b items loc
  · intro e he
    simp only [deletePrefix, he]
  · intro b2 h2
    unfold deletePrefix
    rw [h2]
    cases b.listResult <;> rfl

/-- A backend listing five objects under the prefix, where deleting the third
object (`c`) is forced to fail. -/
def c3Backend : DeletePrefixBackend where
  listResult := .ok [.ok "a".toList, .ok "b".toList, .ok "c".toList,
    .ok "d".toList, .ok "e".toList]
  deleteResult := fun loc => if loc = "c".toList then .error .generic else .ok ()

/-- C3 witness: with five listed objects and the third delete forced to fail,
the call still reports success and the third object's deletion was
attempted. -/
theorem c3_delete_prefix_best_effort_witness :
    (deletePrefix c3Backend).1 = .ok ()
    ∧ (DelEvent.deleteAttempt "c".toList ∈ (deletePrefix c3Backend).2 ↔
        .ok "c".toList ∈ ([.ok "a".toList, .ok "b".toList, .ok "c".toList,
          .ok "d".toList, .ok "e".toList] : List (Except StoreError (List Char)))) :=
  ⟨((c3_delete_prefix_best_effort c3Backend).1 _ rfl).1,
    ((c3_delete_prefix_best_effort c3Backend).1 _ rfl).2 "c".toList⟩

/-- A multipart environment in which the write of the first chunk fails while
every backend request (session open, abort, shutdown) succeeds. -/
def c2Backend : MultipartBackend where
  openResult := .ok ()
  putMultipartResult := .ok ()
  steps := [ChunkStep.chunk (.error .ioError) (.ok ())]
  abortResult := .ok ()
  shutdownResult := .ok ()

/-- C2 (code bug): a failed chunk write makes `_upload_multipart` abort the
multipart session, but the loop then merely breaks: control falls through
to `async_writer.shutdown()` and, when that call succeeds, the function
returns Ok — the original chunk-level failure is logged and dropped
instead of being propagated. -/
theorem c2_multipart_error_dropped :
    (uploadMultipart c2Backend).1 = .ok ()
    ∧ Req.abortMultipart ∈ (uploadMultipart c2Backend).2 := by
  exact ⟨rfl, by decide⟩

/-- C8: with the local file-size query succeeding, `_upload_file` takes the
multipart path — environment, result and request trace all agree with
`_upload_multipart` — exactly when the size exceeds the 100 MiB threshold;
otherwise, once the full in-memory read succeeds, the call issues exactly
one put request. -/
theorem c8_upload_file_threshold (b : UploadFileBackend) (n : Nat)
    (h : b.fileLenResult = .ok n) :
    (n > MULTIPART_UPLOAD_SIZE → uploadFile b = uploadMultipart b.multipart)
    ∧ (n ≤ MULTIPART_UPLOAD_SIZE → b.readResult = .ok () →
        (uploadFile b).2 = [Req.putObject]) := by
  constructor
  · intro hn
    simp only [uploadFile, h, if_pos hn]
  · intro hn hr
    simp only [uploadFile, h, if_neg (not_lt.mpr hn), hr]
    cases b.putResult <;> rfl

/-- A multipart environment reporting end of file immediately. -/
def eofMultipart : MultipartBackend where
  openResult := .ok ()
  putMultipartResult := .ok ()
  steps := []
  abortResult := .ok ()
  shutdownResult := .ok ()

/-- An upload environment for a 150 MiB local file. -/
def c8BigBackend : UploadFileBackend where
  fileLenResult := .ok 157286400
  readResult := .ok ()
  putResult := .ok ()
  multipart := eofMultipart

/-- An upload environment for a 10 MiB local file. -/
def c8SmallBackend : UploadFileBackend where
  fileLenResult := .ok 10485760
  readResult := .ok ()
  putResult := .ok ()
  multipart := eofMultipart

/-- C8 witness: a 150 MiB file takes the multipart path and a 10 MiB file
takes the single-shot path with exactly one put request. -/
theorem c8_upload_file_threshold_witness :
    (157286400 > MULTIPART_UPLOAD_SIZE
      ∧ uploadFile c8BigBackend = uploadMultipart c8BigBackend.multipart)
    ∧ (10485760 ≤ MULTIPART_UPLOAD_SIZE
      ∧ (uploadFile c8SmallBackend).2 = [Req.putObject]) :=
  ⟨⟨by decide, (c8_upload_file_threshold c8BigBackend 157286400 rfl).1 (by decide)⟩,
    ⟨by decide, (c8_upload_file_threshold c8SmallBackend 10485760 rfl).2 (by decide) rfl⟩⟩
